import Mathlib

/-!
Heating-requirement lookup of `src/App.jsx`.

A shallow embedding of the `fetchData` effect of the `App` component: the
`months` table, the `complete` callback handed to the CSV parser (location
column discovery, distinct-location extraction, row lookup, month cell lookup)
and the state it writes through the React setters, followed by the theorems
about them.

Modelling choices.

* A JavaScript string is a Lean `String`; `includes` is contiguous-substring
  containment on the characters.
* `String.prototype.toLowerCase` is a library function outside the component:
  every definition that needs it takes it as the argument `toLowerCase`, and
  the theorems hold for every such function unless they say otherwise.
  `asciiLower` is the instance used to evaluate the code on ASCII inputs, and
  `finalSigmaLower` the one used where the Final_Sigma rule matters.
* A parsed row (an object produced by the CSV parser in header mode) is an
  association list from column header to cell string, in header order;
  `row[key]` is `List.lookup`, which is `none` where JavaScript gives
  `undefined`, and `Object.keys` is the list of first components.
* The outcomes of the two collaborators (`axios.get`, `Papa.parse`) are inputs
  of `fetchData`.
* `month` is an index into the twelve-entry `months` table, a `Fin 12`.
-/

namespace FmiHeating

/-! ## Data model -/

/-- One parsed CSV row: column header to cell, in header order. -/
abbrev Row := List (String × String)

/-- The value of `results.data` once it is known to be an array. -/
abbrev Table := List Row

/-- An entry of the `months` table. -/
structure Month where
  name : String
  roman : String
  deriving DecidableEq

/-- The object handed to `setHeatingData`. -/
structure HeatingRecord where
  location : String
  month : String
  heatingRequirement : String
  dataYear : Nat
  deriving DecidableEq

/-- The component state that `fetchData` writes and the render reads. -/
structure State where
  loading : Bool
  error : Option String
  heatingData : Option HeatingRecord
  locations : List String
  deriving DecidableEq

/-- Outcome of `await axios.get(url)`: the response body, or the message of
the error it rejected with. -/
inductive AxiosOutcome where
  | response (data : String)
  | rejected (message : String)
  deriving DecidableEq

/-- Outcome of `Papa.parse`: the `complete` callback is called with
`results.data` (`none` when it is missing), or the `error` callback is called
with an error carrying `message`. -/
inductive PapaOutcome where
  | complete (data : Option Table)
  | error (message : String)
  deriving DecidableEq

/-! ## String primitives -/

/-- The call `s.includes(q)`: `q` occurs in `s` as a contiguous run of
characters. -/
def includes (s q : String) : Bool :=
  s.toList.tails.any (fun t => q.toList.isPrefixOf t)

/-- Truthiness of a string-or-undefined value: defined and not empty. -/
def truthy : Option String → Bool
  | none => false
  | some s => s != ""

/-- A string function that maps every character on its own. -/
def charwise (f : Char → Char) (s : String) : String :=
  String.mk (s.toList.map f)

/-- Lowercasing of the ASCII letters, character by character. -/
def asciiLower : String → String :=
  charwise Char.toLower

/-- The call `parts.join(sep)`. -/
def join (sep : String) : List String → String
  | [] => ""
  | [a] => a
  | a :: b :: rest => a ++ sep ++ join sep (b :: rest)

/-! ## The `months` table -/

/-- The constant `months` (lines 15-28). -/
def months : List Month :=
  [ ⟨"January", "I"⟩, ⟨"February", "II"⟩, ⟨"March", "III"⟩, ⟨"April", "IV"⟩,
    ⟨"May", "V"⟩, ⟨"June", "VI"⟩, ⟨"July", "VII"⟩, ⟨"August", "VIII"⟩,
    ⟨"September", "IX"⟩, ⟨"October", "X"⟩, ⟨"November", "XI"⟩, ⟨"December", "XII"⟩ ]

/-- The entry `months[month]` for a month index in range. -/
def monthEntry (month : Fin 12) : Month :=
  months.getD month.val ⟨"", ""⟩

/-! ## The `complete` callback -/

/-- The test of the `find` over the header keys (line 55). -/
def isLocationKey (key : String) : Bool :=
  includes key "Lämmitystarveluvut" || includes key "°Cvrk)"

/-- The key `locationColumn`: `Object.keys(results.data[0] || {}).find(...)`
(lines 54-56). -/
def locationColumn (data : Table) : Option String :=
  ((data.head?.getD []).map Prod.fst).find? isLocationKey

/-- The step `self.filter((loc, index, self) => self.indexOf(loc) === index)`
(line 67). -/
def filterFirstIndex (self : List String) : List String :=
  (self.enum.filter (fun p => self.indexOf p.2 == p.1)).map Prod.snd

/-- The list `availableLocs` (lines 64-67): the location cells of all rows,
the falsy ones dropped, each value kept at its first index only. -/
def availableLocs (data : Table) (key : String) : List String :=
  filterFirstIndex
    ((data.map (fun row => row.lookup key)).filterMap
      (fun cell => if truthy cell then cell else none))

/-- The test of the `find` over the rows (lines 72-77). -/
def matchesLocation (toLowerCase : String → String) (key selectedLocation : String)
    (row : Row) : Bool :=
  match row.lookup key with
  | none => false
  | some loc =>
    loc != "" &&
      (includes loc selectedLocation ||
        includes (toLowerCase loc) (toLowerCase selectedLocation))

/-- The row `locationRow` (lines 72-77). -/
def locationRow (toLowerCase : String → String) (data : Table)
    (key selectedLocation : String) : Option Row :=
  data.find? (matchesLocation toLowerCase key selectedLocation)

/-- The message of line 80. -/
def notFoundMessage (selectedLocation : String) (locs : List String) : String :=
  "No data found for " ++ selectedLocation ++ ". Available locations: " ++
    (if join ", " locs = "" then "none" else join ", " locs)

/-- The `complete` callback (lines 48-98) as a function on the state. -/
def complete (toLowerCase : String → String) (year : Nat) (month : Fin 12)
    (selectedLocation : String) (data : Option Table) (st : State) : State :=
  match data with
  | none => { st with error := some "No data available for this year" }
  | some [] => { st with error := some "No data available for this year" }
  | some (row0 :: rest) =>
    match locationColumn (row0 :: rest) with
    | none => { st with error := some "Could not find location column in CSV data" }
    | some key =>
      let locs := availableLocs (row0 :: rest) key
      let st1 := { st with locations := locs }
      match locationRow toLowerCase (row0 :: rest) key selectedLocation with
      | none => { st1 with error := some (notFoundMessage selectedLocation locs) }
      | some row =>
        match row.lookup (monthEntry month).roman with
        | none =>
          { st1 with error := some ("No data found for " ++ (monthEntry month).name) }
        | some heatingValue =>
          { st1 with
            heatingData := some
              { location := (row.lookup key).getD ""
                month := (monthEntry month).name ++ " " ++ toString year
                heatingRequirement := heatingValue
                dataYear := year } }

/-! ## `fetchData` and the render guard -/

/-- The effect `fetchData` (lines 36-108): `setLoading(true)`,
`setError(null)`, the request, the parse with its two callbacks, the `catch`
and the `finally`. -/
def fetchData (toLowerCase : String → String) (year : Nat) (month : Fin 12)
    (selectedLocation : String) (axios : AxiosOutcome) (papa : PapaOutcome)
    (st : State) : State :=
  let st0 := { st with loading := true, error := none }
  let st1 :=
    match axios with
    | .rejected message => { st0 with error := some ("Error fetching data: " ++ message) }
    | .response _ =>
      match papa with
      | .complete data => complete toLowerCase year month selectedLocation data st0
      | .error message => { st0 with error := some ("Error parsing CSV: " ++ message) }
  { st1 with loading := false }

/-- The record shown by the render (lines 165-172): the stored record when
`heatingData && !loading && !error` holds, nothing otherwise. -/
def displayedRecord (st : State) : Option HeatingRecord :=
  if st.heatingData.isSome && !st.loading && !(truthy st.error) then st.heatingData
  else none

/-! ## Example inputs -/

/-- The header of the yearly files. -/
def exampleHeader : List String :=
  ["Lämmitystarveluvut (17°Cvrk)", "I", "II", "III", "IV", "V", "VI", "VII", "VIII",
    "IX", "X", "XI", "XII"]

/-- The row the parser builds from the cells of one line: the cells paired with
the headers, a header without a cell left out. -/
def rowOf (cells : List String) : Row :=
  exampleHeader.zip cells

/-- A row for a location with the twelve monthly cells. -/
def exampleRow (loc : String) : Row :=
  rowOf [loc, "120", "100", "90", "80", "70", "60", "50", "40", "30", "20", "15", "10"]

/-- The state of a freshly mounted component (lines 6-13). -/
def initialState : State :=
  { loading := false, error := none, heatingData := none, locations := ["Vantaa"] }

/-! ## Specification-side notions -/

/-- The string `q` occurs in `s` as a contiguous run of characters. -/
def IsSubstring (q s : String) : Prop :=
  q.toList <:+: s.toList

/-- The row has a non-empty location cell that contains the query as written
or after lowercasing both. -/
def MatchesQuery (toLowerCase : String → String) (key q : String) (row : Row) : Prop :=
  ∃ loc, row.lookup key = some loc ∧ loc ≠ "" ∧
    (IsSubstring q loc ∨ IsSubstring (toLowerCase q) (toLowerCase loc))

instance (q s : String) : Decidable (IsSubstring q s) :=
  inferInstanceAs (Decidable (q.toList <:+: s.toList))

/-- One of the two marker strings occurs in the header key. -/
def HasMarker (key : String) : Prop :=
  IsSubstring "Lämmitystarveluvut" key ∨ IsSubstring "°Cvrk)" key

instance (key : String) : Decidable (HasMarker key) :=
  inferInstanceAs (Decidable (_ ∨ _))

/-- A test applied to the cell of the row under the key; false when the row
has no such key. -/
def cellContains (key : String) (row : Row) (test : String → Bool) : Bool :=
  match row.lookup key with
  | none => false
  | some loc => test loc

/-- The two-pass matcher of the specification: the first row whose location
cell contains the query as written, and only when there is none the first row
whose lowercased location cell contains the lowercased query. -/
def twoPassRow (toLowerCase : String → String) (data : Table) (key q : String) :
    Option Row :=
  match data.find? (fun row => cellContains key row (fun loc => includes loc q)) with
  | some row => some row
  | none =>
    data.find? (fun row =>
      cellContains key row (fun loc => includes (toLowerCase loc) (toLowerCase q)))

/-- The single case-insensitive scan: the first row with a non-empty location
cell whose lowercase contains the lowercase query. -/
def caseInsensitiveRow (toLowerCase : String → String) (data : Table) (key q : String) :
    Option Row :=
  data.find? (fun row =>
    cellContains key row
      (fun loc => loc != "" && includes (toLowerCase loc) (toLowerCase q)))

/-- Index of the first row whose location cell is `a` (the number of rows when
there is none). -/
def firstRowIndex (data : Table) (key a : String) : Nat :=
  data.findIdx (fun row => row.lookup key == some a)

/-- Greedy expansion of a number over a descending list of numeral symbols. -/
def toRomanAux : List (Nat × String) → Nat → String
  | [], _ => ""
  | (v, sym) :: rest, n => String.join (List.replicate (n / v) sym) ++ toRomanAux rest (n % v)

/-- The standard Roman numeral of a number. -/
def toRoman (n : Nat) : String :=
  toRomanAux
    [(1000, "M"), (900, "CM"), (500, "D"), (400, "CD"), (100, "C"), (90, "XC"),
      (50, "L"), (40, "XL"), (10, "X"), (9, "IX"), (5, "V"), (4, "IV"), (1, "I")] n

/-- The header key of the location column in the yearly files. -/
def exampleKey : String := "Lämmitystarveluvut (17°Cvrk)"

/-- The English name of the month with the given zero-based index. -/
def englishMonthName (m : Fin 12) : String :=
  match m.val with
  | 0 => "January"
  | 1 => "February"
  | 2 => "March"
  | 3 => "April"
  | 4 => "May"
  | 5 => "June"
  | 6 => "July"
  | 7 => "August"
  | 8 => "September"
  | 9 => "October"
  | 10 => "November"
  | _ => "December"

/-! ## A context-sensitive lowercasing

`String.prototype.toLowerCase` follows the Unicode default case conversion,
whose Final_Sigma rule lowercases the Greek capital sigma to the final form
when a cased letter precedes it and none follows it (case-ignorable characters
skipped on both sides), and to the medial form otherwise. `finalSigmaLower`
is that conversion on strings of ASCII characters and Greek letters. -/

/-- A Greek capital letter, alpha to omega (the code point after rho is
unassigned). -/
def isGreekCapital (c : Char) : Bool :=
  0x391 ≤ c.toNat && c.toNat ≤ 0x3A9 && c.toNat != 0x3A2

/-- A cased letter among the ASCII and Greek letters. -/
def isCased (c : Char) : Bool :=
  c.isAlpha || isGreekCapital c || (0x3B1 ≤ c.toNat && c.toNat ≤ 0x3C9)

/-- The case-ignorable ASCII characters: apostrophe, full stop, colon,
circumflex and grave accent. -/
def isCaseIgnorable (c : Char) : Bool :=
  c.toNat == 0x27 || c.toNat == 0x2E || c.toNat == 0x3A || c.toNat == 0x5E ||
    c.toNat == 0x60

/-- The first character that is not case-ignorable is a cased letter. -/
def nextIsCased (cs : List Char) : Bool :=
  match cs.dropWhile isCaseIgnorable with
  | [] => false
  | c :: _ => isCased c

/-- The lowercase of one character taken on its own: ASCII and Greek capital
letters move to their small letters, 32 code points up. -/
def lowerChar (c : Char) : Char :=
  if c.isUpper || isGreekCapital c then Char.ofNat (c.toNat + 32) else c

/-- Lowercasing of the characters after the ones already read, which are
given last read first. -/
def finalSigmaLowerAux (before : List Char) : List Char → List Char
  | [] => []
  | c :: rest =>
    (if c.toNat == 0x3A3 && nextIsCased before && !nextIsCased rest then Char.ofNat 0x3C2
      else lowerChar c) :: finalSigmaLowerAux (c :: before) rest

/-- Lowercasing with the Final_Sigma rule. -/
def finalSigmaLower (s : String) : String :=
  String.mk (finalSigmaLowerAux [] s.toList)

/-! ## Basic facts -/

theorem includes_iff (s q : String) : includes s q = true ↔ IsSubstring q s := by
  unfold includes IsSubstring
  rw [List.any_eq_true, List.infix_iff_prefix_suffix]
  constructor
  · rintro ⟨t, ht, hp⟩
    exact ⟨t, List.isPrefixOf_iff_prefix.mp hp, (List.mem_tails _ _).mp ht⟩
  · rintro ⟨t, hp, ht⟩
    exact ⟨t, (List.mem_tails _ _).mpr ht, List.isPrefixOf_iff_prefix.mpr hp⟩

theorem matchesLocation_iff (toLowerCase : String → String) (key q : String) (row : Row) :
    matchesLocation toLowerCase key q row = true ↔ MatchesQuery toLowerCase key q row := by
  unfold matchesLocation MatchesQuery
  cases h : row.lookup key with
  | none => simp
  | some loc => simp [includes_iff]

theorem fetchData_rejected (toLowerCase : String → String) (year : Nat) (month : Fin 12)
    (q message : String) (papa : PapaOutcome) (st : State) :
    fetchData toLowerCase year month q (.rejected message) papa st =
      { st with loading := false, error := some ("Error fetching data: " ++ message) } := rfl

theorem fetchData_parseError (toLowerCase : String → String) (year : Nat) (month : Fin 12)
    (q csv message : String) (st : State) :
    fetchData toLowerCase year month q (.response csv) (.error message) st =
      { st with loading := false, error := some ("Error parsing CSV: " ++ message) } := rfl

theorem fetchData_noData (toLowerCase : String → String) (year : Nat) (month : Fin 12)
    (q csv : String) (data : Option Table) (st : State) (h : data = none ∨ data = some []) :
    fetchData toLowerCase year month q (.response csv) (.complete data) st =
      { st with loading := false, error := some "No data available for this year" } := by
  rcases h with rfl | rfl <;> rfl

theorem fetchData_noColumn (toLowerCase : String → String) (year : Nat) (month : Fin 12)
    (q csv : String) (row0 : Row) (rest : Table) (st : State)
    (h : locationColumn (row0 :: rest) = none) :
    fetchData toLowerCase year month q (.response csv) (.complete (some (row0 :: rest))) st =
      { st with loading := false,
                error := some "Could not find location column in CSV data" } := by
  simp [fetchData, complete, h]

theorem fetchData_notFound (toLowerCase : String → String) (year : Nat) (month : Fin 12)
    (q csv key : String) (row0 : Row) (rest : Table) (st : State)
    (hkey : locationColumn (row0 :: rest) = some key)
    (hrow : locationRow toLowerCase (row0 :: rest) key q = none) :
    fetchData toLowerCase year month q (.response csv) (.complete (some (row0 :: rest))) st =
      { loading := false,
        error := some (notFoundMessage q (availableLocs (row0 :: rest) key)),
        heatingData := st.heatingData,
        locations := availableLocs (row0 :: rest) key } := by
  simp [fetchData, complete, hkey, hrow]

theorem fetchData_missingMonth (toLowerCase : String → String) (year : Nat) (month : Fin 12)
    (q csv key : String) (row0 row : Row) (rest : Table) (st : State)
    (hkey : locationColumn (row0 :: rest) = some key)
    (hrow : locationRow toLowerCase (row0 :: rest) key q = some row)
    (hcell : row.lookup (monthEntry month).roman = none) :
    fetchData toLowerCase year month q (.response csv) (.complete (some (row0 :: rest))) st =
      { loading := false,
        error := some ("No data found for " ++ (monthEntry month).name),
        heatingData := st.heatingData,
        locations := availableLocs (row0 :: rest) key } := by
  simp [fetchData, complete, hkey, hrow, hcell]

theorem fetchData_success (toLowerCase : String → String) (year : Nat) (month : Fin 12)
    (q csv key value : String) (row0 row : Row) (rest : Table) (st : State)
    (hkey : locationColumn (row0 :: rest) = some key)
    (hrow : locationRow toLowerCase (row0 :: rest) key q = some row)
    (hcell : row.lookup (monthEntry month).roman = some value) :
    fetchData toLowerCase year month q (.response csv) (.complete (some (row0 :: rest))) st =
      { loading := false,
        error := none,
        heatingData := some
          { location := (row.lookup key).getD ""
            month := (monthEntry month).name ++ " " ++ toString year
            heatingRequirement := value
            dataYear := year },
        locations := availableLocs (row0 :: rest) key } := by
  simp [fetchData, complete, hkey, hrow, hcell]

theorem locationRow_matches (toLowerCase : String → String) (data : Table)
    (key q : String) (row : Row) (h : locationRow toLowerCase data key q = some row) :
    row ∈ data ∧ MatchesQuery toLowerCase key q row := by
  unfold locationRow at h
  exact ⟨List.mem_of_find?_eq_some h,
    (matchesLocation_iff _ _ _ _).mp (List.find?_some h)⟩

theorem locationRow_eq_none_iff (toLowerCase : String → String) (data : Table)
    (key q : String) :
    locationRow toLowerCase data key q = none ↔
      ∀ row ∈ data, ¬ MatchesQuery toLowerCase key q row := by
  unfold locationRow
  rw [List.find?_eq_none]
  simp only [← matchesLocation_iff]

/-! ## The error messages are pairwise different -/

theorem notFoundMessage_ne_missingMonth (q : String) (locs : List String) (month : Fin 12) :
    notFoundMessage q locs ≠ "No data found for " ++ (monthEntry month).name := by
  intro h
  have hdot : '.' ∈ (notFoundMessage q locs).toList := by
    simp [notFoundMessage, String.toList]
  rw [h] at hdot
  have hno : ∀ m : Fin 12, '.' ∉ ("No data found for " ++ (monthEntry m).name).toList := by
    decide
  exact hno month hdot

theorem head_noData (x : String) : ("No data found for " ++ x).toList.head? = some 'N' := by
  simp [String.toList]

theorem notFoundMessage_head (q : String) (locs : List String) :
    (notFoundMessage q locs).toList.head? = some 'N' := by
  simp [notFoundMessage, String.toList]

theorem isLocationKey_iff (key : String) : isLocationKey key = true ↔ HasMarker key := by
  simp [isLocationKey, HasMarker, includes_iff]

theorem locationColumn_cons (row0 : Row) (rest : Table) :
    locationColumn (row0 :: rest) = (row0.map Prod.fst).find? isLocationKey := rfl

/-- Every final error of a run that reached the row scan starts with `N`. -/
theorem fetchData_cases (toLowerCase : String → String) (year : Nat) (month : Fin 12)
    (q csv key : String) (row0 : Row) (rest : Table) (st : State)
    (hkey : locationColumn (row0 :: rest) = some key) :
    (locationRow toLowerCase (row0 :: rest) key q = none ∧
      fetchData toLowerCase year month q (.response csv) (.complete (some (row0 :: rest))) st =
        { loading := false,
          error := some (notFoundMessage q (availableLocs (row0 :: rest) key)),
          heatingData := st.heatingData,
          locations := availableLocs (row0 :: rest) key }) ∨
    (∃ row, locationRow toLowerCase (row0 :: rest) key q = some row ∧
      row.lookup (monthEntry month).roman = none ∧
      fetchData toLowerCase year month q (.response csv) (.complete (some (row0 :: rest))) st =
        { loading := false,
          error := some ("No data found for " ++ (monthEntry month).name),
          heatingData := st.heatingData,
          locations := availableLocs (row0 :: rest) key }) ∨
    (∃ row value, locationRow toLowerCase (row0 :: rest) key q = some row ∧
      row.lookup (monthEntry month).roman = some value ∧
      fetchData toLowerCase year month q (.response csv) (.complete (some (row0 :: rest))) st =
        { loading := false,
          error := none,
          heatingData := some
            { location := (row.lookup key).getD ""
              month := (monthEntry month).name ++ " " ++ toString year
              heatingRequirement := value
              dataYear := year },
          locations := availableLocs (row0 :: rest) key }) := by
  cases hrow : locationRow toLowerCase (row0 :: rest) key q with
  | none => exact Or.inl ⟨rfl, fetchData_notFound _ _ _ _ _ _ _ _ _ hkey hrow⟩
  | some row =>
    cases hcell : row.lookup (monthEntry month).roman with
    | none =>
      exact Or.inr (Or.inl ⟨row, rfl, hcell,
        fetchData_missingMonth _ _ _ _ _ _ _ _ _ _ hkey hrow hcell⟩)
    | some value =>
      exact Or.inr (Or.inr ⟨row, value, rfl, hcell,
        fetchData_success _ _ _ _ _ _ _ _ _ _ _ hkey hrow hcell⟩)

/-! ## The location list -/

/-- The falsy-dropping step `.filter(Boolean)` on the location cells. -/
theorem truthy_cells_cons (key : String) (row : Row) (rest : Table) :
    ((row :: rest).map (fun r => r.lookup key)).filterMap
        (fun cell => if truthy cell then cell else none) =
      (match row.lookup key with
        | some loc => if loc = "" then [] else [loc]
        | none => []) ++
      (rest.map (fun r => r.lookup key)).filterMap
        (fun cell => if truthy cell then cell else none) := by
  cases h : row.lookup key with
  | none => simp [h, truthy]
  | some loc =>
    by_cases hl : loc = ""
    · simp [h, truthy, hl]
    · simp [h, truthy, hl]

theorem mem_filterFirstIndex (self : List String) (a : String) :
    a ∈ filterFirstIndex self ↔ a ∈ self := by
  unfold filterFirstIndex
  constructor
  · intro h
    obtain ⟨⟨i, b⟩, hmem, rfl⟩ := List.mem_map.mp h
    have := List.mk_mem_enum_iff_getElem?.mp (List.mem_filter.mp hmem).1
    exact List.getElem?_mem this
  · intro h
    refine List.mem_map.mpr ⟨(self.indexOf a, a), List.mem_filter.mpr ⟨?_, by simp⟩, rfl⟩
    rw [List.mk_mem_enum_iff_getElem?]
    have := List.indexOf_get? h
    simpa using this

theorem nodup_filterFirstIndex (self : List String) : (filterFirstIndex self).Nodup := by
  unfold filterFirstIndex
  refine List.Nodup.map_on ?_ ?_
  · rintro ⟨i, a⟩ hx ⟨j, b⟩ hy hab
    have h1 := (List.mem_filter.mp hx).2
    have h2 := (List.mem_filter.mp hy).2
    simp only [beq_iff_eq] at h1 h2
    simp only at hab
    subst hab
    rw [← h1, ← h2]
  · refine List.Nodup.filter _ ?_
    exact List.Nodup.of_map Prod.fst (List.nodup_enum_map_fst self)

theorem pairwise_filterFirstIndex (self : List String) :
    (filterFirstIndex self).Pairwise (fun a b => self.indexOf a < self.indexOf b) := by
  unfold filterFirstIndex
  rw [List.pairwise_map]
  have hlt : (self.enum).Pairwise (fun x y => x.1 < y.1) := by
    have := List.pairwise_lt_range self.length
    rw [← List.enum_map_fst, List.pairwise_map] at this
    exact this
  have hsub := hlt.sublist (List.filter_sublist (p := fun p => self.indexOf p.2 == p.1) self.enum)
  refine List.Pairwise.imp_of_mem ?_ hsub
  intro x y hx hy hxy
  have h1 := (List.mem_filter.mp hx).2
  have h2 := (List.mem_filter.mp hy).2
  simp only [beq_iff_eq] at h1 h2
  rw [h1, h2]
  exact hxy

theorem mem_availableLocs (data : Table) (key a : String) :
    a ∈ availableLocs data key ↔ a ≠ "" ∧ ∃ row ∈ data, row.lookup key = some a := by
  unfold availableLocs
  rw [mem_filterFirstIndex, List.mem_filterMap]
  constructor
  · rintro ⟨cell, hcell, hc⟩
    obtain ⟨row, hrow, rfl⟩ := List.mem_map.mp hcell
    cases h : row.lookup key with
    | none => simp [h, truthy] at hc
    | some loc =>
      by_cases hl : loc = ""
      · simp [h, truthy, hl] at hc
      · simp [h, truthy, hl] at hc
        subst hc
        exact ⟨hl, row, hrow, h⟩
  · rintro ⟨ha, row, hrow, h⟩
    exact ⟨some a, List.mem_map.mpr ⟨row, hrow, h⟩, by simp [truthy, ha]⟩

theorem firstRowIndex_cons_eq (key a : String) (row : Row) (rest : Table)
    (h : row.lookup key = some a) : firstRowIndex (row :: rest) key a = 0 := by
  unfold firstRowIndex
  rw [List.findIdx_cons]
  simp [h]

theorem firstRowIndex_cons_ne (key a : String) (row : Row) (rest : Table)
    (h : row.lookup key ≠ some a) :
    firstRowIndex (row :: rest) key a = firstRowIndex rest key a + 1 := by
  unfold firstRowIndex
  have hne : (row.lookup key == some a) = false := beq_eq_false_iff_ne.mpr h
  rw [List.findIdx_cons, hne]
  rfl

theorem firstRowIndex_lt_of_indexOf_lt (key a b : String) (ha : a ≠ "") (hb : b ≠ "") :
    ∀ data : Table,
      ((data.map (fun r => r.lookup key)).filterMap
          (fun cell => if truthy cell then cell else none)).indexOf a <
        ((data.map (fun r => r.lookup key)).filterMap
          (fun cell => if truthy cell then cell else none)).indexOf b →
      firstRowIndex data key a < firstRowIndex data key b := by
  intro data
  induction data with
  | nil => simp
  | cons row rest ih =>
    rw [truthy_cells_cons]
    cases h : row.lookup key with
    | none =>
      intro hlt
      have := ih (by simpa using hlt)
      rw [firstRowIndex_cons_ne _ _ _ _ (by simp [h]),
        firstRowIndex_cons_ne _ _ _ _ (by simp [h])]
      omega
    | some loc =>
      by_cases hl : loc = ""
      · subst hl
        intro hlt
        have := ih (by simpa using hlt)
        rw [firstRowIndex_cons_ne _ _ _ _ (by simpa [h] using Ne.symm ha),
          firstRowIndex_cons_ne _ _ _ _ (by simpa [h] using Ne.symm hb)]
        omega
      · simp only [hl, if_false, List.singleton_append]
        by_cases hla : loc = a
        · subst hla
          by_cases hlb : loc = b
          · subst hlb
            simp
          · intro _
            rw [firstRowIndex_cons_eq _ _ _ _ h,
              firstRowIndex_cons_ne _ _ _ _ (by simpa [h] using hlb)]
            omega
        · by_cases hlb : loc = b
          · subst hlb
            simp
          · intro hlt
            rw [List.indexOf_cons_ne _ hla, List.indexOf_cons_ne _ hlb] at hlt
            have := ih (by omega)
            rw [firstRowIndex_cons_ne _ _ _ _ (by simpa [h] using hla),
              firstRowIndex_cons_ne _ _ _ _ (by simpa [h] using hlb)]
            omega

/-! ## Row selection -/

/-- C1 (as the code has it): the resolved row is the first row, in file order,
whose location cell is non-empty and contains the query either as written or
after lowercasing both; no preference is given to a later exact-case match. -/
theorem locationRow_first_match (toLowerCase : String → String) (data : Table)
    (key q : String) (row : Row) :
    locationRow toLowerCase data key q = some row ↔
      MatchesQuery toLowerCase key q row ∧
        ∃ before after, data = before ++ row :: after ∧
          ∀ r ∈ before, ¬ MatchesQuery toLowerCase key q r := by
  unfold locationRow
  rw [List.find?_eq_some]
  simp only [matchesLocation_iff, Bool.not_eq_true_eq_eq_false, ← Bool.not_eq_true,
    Bool.not_eq_eq_eq_not, Bool.not_true]

/-- C1 fails as stated: with rows "VANTAA region", "Vantaa" and the query
"Vantaa", only the second row contains the query as written, the two-pass
matcher picks it, and the code resolves to the first row. -/
theorem twoPass_preference_fails :
    includes "VANTAA region" "Vantaa" = false ∧
    includes "Vantaa" "Vantaa" = true ∧
    twoPassRow asciiLower [exampleRow "VANTAA region", exampleRow "Vantaa"] exampleKey
      "Vantaa" = some (exampleRow "Vantaa") ∧
    locationRow asciiLower [exampleRow "VANTAA region", exampleRow "Vantaa"] exampleKey
      "Vantaa" = some (exampleRow "VANTAA region") ∧
    ((fetchData asciiLower 2024 0 "Vantaa" (.response "")
        (.complete (some [exampleRow "VANTAA region", exampleRow "Vantaa"]))
        initialState).heatingData.map (fun r => r.location)) = some "VANTAA region" := by
  decide

theorem find?_congr_mem {α : Type} (p r : α → Bool) :
    ∀ l : List α, (∀ a ∈ l, p a = r a) → l.find? p = l.find? r := by
  intro l
  induction l with
  | nil => intro _; rfl
  | cons a t ih =>
    intro h
    have ha := h a (List.mem_cons_self a t)
    have ht := ih (fun b hb => h b (List.mem_cons_of_mem a hb))
    simp only [List.find?_cons, ha, ht]

/-- C10 (as the code has it): on every table and query on whose strings
lowercasing acts character by character (the lowercase of the query and of
every location cell is the character-wise image under one map), the row test
of the code (non-empty location that contains the query, or whose lowercase
contains the lowercase query) selects the same row as one case-insensitive
scan. -/
theorem locationRow_eq_caseInsensitiveRow (toLowerCase : String → String)
    (f : Char → Char) (data : Table) (key q : String)
    (hq : toLowerCase q = charwise f q)
    (hcells : ∀ row ∈ data,
      (row.lookup key).map toLowerCase = (row.lookup key).map (charwise f)) :
    locationRow toLowerCase data key q = caseInsensitiveRow toLowerCase data key q := by
  unfold locationRow caseInsensitiveRow
  apply find?_congr_mem
  intro row hrow
  have hcell := hcells row hrow
  unfold matchesLocation cellContains
  cases hl : row.lookup key with
  | none => rfl
  | some loc =>
    rw [hl] at hcell
    simp only [Option.map_some', Option.some.injEq] at hcell
    have himp : includes loc q = true → includes (toLowerCase loc) (toLowerCase q) = true := by
      intro h
      rw [hcell, hq]
      rw [includes_iff] at h ⊢
      exact List.IsInfix.map f h
    cases h1 : includes loc q with
    | false => simp [h1]
    | true => simp [h1, himp h1]

/-- Witness for C10: on the rows "VANTAA region" and "Vantaa" with the query
"vantaa" the context-sensitive lowercasing acts character by character, and
both scans select the first row. -/
theorem locationRow_eq_caseInsensitiveRow_witness :
    finalSigmaLower "vantaa" = charwise lowerChar "vantaa" ∧
    (∀ row ∈ [exampleRow "VANTAA region", exampleRow "Vantaa"],
      (row.lookup exampleKey).map finalSigmaLower =
        (row.lookup exampleKey).map (charwise lowerChar)) ∧
    locationRow finalSigmaLower [exampleRow "VANTAA region", exampleRow "Vantaa"]
        exampleKey "vantaa" =
      caseInsensitiveRow finalSigmaLower [exampleRow "VANTAA region", exampleRow "Vantaa"]
        exampleKey "vantaa" ∧
    caseInsensitiveRow finalSigmaLower [exampleRow "VANTAA region", exampleRow "Vantaa"]
        exampleKey "vantaa" = some (exampleRow "VANTAA region") :=
  ⟨by decide, by decide,
    locationRow_eq_caseInsensitiveRow finalSigmaLower lowerChar
      [exampleRow "VANTAA region", exampleRow "Vantaa"] exampleKey "vantaa"
      (by decide) (by decide),
    by decide⟩

/-- C10 fails as stated: with the Final_Sigma lowercasing, "ΟΔΟΣ" becomes
"οδος" and "Σ" becomes "σ"; the row "ΟΔΟΣ" contains the query "Σ" as written
but its lowercase does not contain the lowercase query. On the rows "ΟΔΟΣ",
"Σ" the code selects the first row and the case-insensitive scan the second;
on the single row "ΟΔΟΣ" the code selects it and the scan selects none. -/
theorem caseInsensitiveRow_differs_on_final_sigma :
    finalSigmaLower "ΟΔΟΣ" = "οδος" ∧
    finalSigmaLower "Σ" = "σ" ∧
    includes "ΟΔΟΣ" "Σ" = true ∧
    includes "οδος" "σ" = false ∧
    locationRow finalSigmaLower [exampleRow "ΟΔΟΣ", exampleRow "Σ"] exampleKey "Σ" =
      some (exampleRow "ΟΔΟΣ") ∧
    caseInsensitiveRow finalSigmaLower [exampleRow "ΟΔΟΣ", exampleRow "Σ"] exampleKey "Σ" =
      some (exampleRow "Σ") ∧
    exampleRow "ΟΔΟΣ" ≠ exampleRow "Σ" ∧
    locationRow finalSigmaLower [exampleRow "ΟΔΟΣ"] exampleKey "Σ" =
      some (exampleRow "ΟΔΟΣ") ∧
    caseInsensitiveRow finalSigmaLower [exampleRow "ΟΔΟΣ"] exampleKey "Σ" = none := by
  decide

/-! ## Outcomes of `fetchData` -/

theorem literal_append_ne_empty (x : String) (c : Char) (cs : List Char) :
    String.mk (c :: cs) ++ x ≠ "" := by
  intro h
  have := congrArg String.toList h
  simp [String.toList] at this

theorem notFoundMessage_ne_empty (q : String) (locs : List String) :
    notFoundMessage q locs ≠ "" := by
  intro h
  have := notFoundMessage_head q locs
  rw [h] at this
  simp [String.toList] at this

/-- A run of `fetchData` either ends with a non-empty error message and the
stored record untouched, or ends without error after the request succeeded,
the parser delivered at least one row, the location column, the row and the
month cell were found, and the record was stored. -/
theorem fetchData_outcome (toLowerCase : String → String) (year : Nat) (month : Fin 12)
    (q : String) (axios : AxiosOutcome) (papa : PapaOutcome) (st : State) :
    (∃ msg, msg ≠ "" ∧
      (fetchData toLowerCase year month q axios papa st).error = some msg ∧
      (fetchData toLowerCase year month q axios papa st).heatingData = st.heatingData ∧
      (fetchData toLowerCase year month q axios papa st).loading = false) ∨
    (∃ csv row0 rest key row value,
      axios = .response csv ∧ papa = .complete (some (row0 :: rest)) ∧
      locationColumn (row0 :: rest) = some key ∧
      locationRow toLowerCase (row0 :: rest) key q = some row ∧
      row.lookup (monthEntry month).roman = some value ∧
      fetchData toLowerCase year month q axios papa st =
        { loading := false,
          error := none,
          heatingData := some
            { location := (row.lookup key).getD ""
              month := (monthEntry month).name ++ " " ++ toString year
              heatingRequirement := value
              dataYear := year },
          locations := availableLocs (row0 :: rest) key }) := by
  cases axios with
  | rejected message =>
    exact Or.inl ⟨_, literal_append_ne_empty message _ _, by rw [fetchData_rejected],
      by rw [fetchData_rejected], by rw [fetchData_rejected]⟩
  | response csv =>
    cases papa with
    | error message =>
      exact Or.inl ⟨_, literal_append_ne_empty message _ _, by rw [fetchData_parseError],
        by rw [fetchData_parseError], by rw [fetchData_parseError]⟩
    | complete data =>
      match data with
      | none =>
        refine Or.inl ⟨"No data available for this year", by decide, ?_, ?_, ?_⟩ <;>
          rw [fetchData_noData _ _ _ _ _ _ _ (Or.inl rfl)]
      | some [] =>
        refine Or.inl ⟨"No data available for this year", by decide, ?_, ?_, ?_⟩ <;>
          rw [fetchData_noData _ _ _ _ _ _ _ (Or.inr rfl)]
      | some (row0 :: rest) =>
        cases hkey : locationColumn (row0 :: rest) with
        | none =>
          refine Or.inl ⟨"Could not find location column in CSV data", by decide, ?_, ?_, ?_⟩ <;>
            rw [fetchData_noColumn _ _ _ _ _ _ _ _ hkey]
        | some key =>
          rcases fetchData_cases toLowerCase year month q csv key row0 rest st hkey with
            ⟨_, he⟩ | ⟨row, _, _, he⟩ | ⟨row, value, hrow, hcell, he⟩
          · exact Or.inl ⟨_, notFoundMessage_ne_empty q _, by rw [he], by rw [he], by rw [he]⟩
          · exact Or.inl ⟨_, literal_append_ne_empty (monthEntry month).name _ _,
              by rw [he], by rw [he], by rw [he]⟩
          · exact Or.inr ⟨csv, row0, rest, key, row, value, rfl, rfl, hkey, hrow, hcell, he⟩

/-- A run that ends without error went through the success path. -/
theorem fetchData_of_ok (toLowerCase : String → String) (year : Nat) (month : Fin 12)
    (q : String) (axios : AxiosOutcome) (papa : PapaOutcome) (st : State)
    (hok : (fetchData toLowerCase year month q axios papa st).error = none) :
    ∃ csv row0 rest key row value,
      axios = .response csv ∧ papa = .complete (some (row0 :: rest)) ∧
      locationColumn (row0 :: rest) = some key ∧
      locationRow toLowerCase (row0 :: rest) key q = some row ∧
      row.lookup (monthEntry month).roman = some value ∧
      fetchData toLowerCase year month q axios papa st =
        { loading := false,
          error := none,
          heatingData := some
            { location := (row.lookup key).getD ""
              month := (monthEntry month).name ++ " " ++ toString year
              heatingRequirement := value
              dataYear := year },
          locations := availableLocs (row0 :: rest) key } := by
  rcases fetchData_outcome toLowerCase year month q axios papa st with
    ⟨msg, _, he, _⟩ | h
  · rw [he] at hok
    exact absurd hok (by simp)
  · exact h

/-- Once the location column is found, the location list of the table is
stored, whatever happens afterwards. -/
theorem fetchData_locations (toLowerCase : String → String) (year : Nat)
    (month : Fin 12) (q csv key : String) (row0 : Row) (rest : Table) (st : State)
    (hkey : locationColumn (row0 :: rest) = some key) :
    (fetchData toLowerCase year month q (.response csv)
        (.complete (some (row0 :: rest))) st).locations = availableLocs (row0 :: rest) key := by
  rcases fetchData_cases toLowerCase year month q csv key row0 rest st hkey with
    ⟨_, he⟩ | ⟨row, _, _, he⟩ | ⟨row, value, _, _, he⟩ <;> rw [he]

theorem head_noColumn :
    ("Could not find location column in CSV data" : String).toList.head? = some 'C' := by
  decide

/-! ## Claims about the resolution -/

/-- C9: a successful resolution stores a record whose location is non-empty
and is a member of the location list stored by the same resolution; the row
test never accepts a row whose location cell is empty or missing, whatever the
query. -/
theorem record_location_selectable (toLowerCase : String → String) (year : Nat)
    (month : Fin 12) (q : String) (axios : AxiosOutcome) (papa : PapaOutcome) (st : State)
    (hok : (fetchData toLowerCase year month q axios papa st).error = none) :
    (∃ r, (fetchData toLowerCase year month q axios papa st).heatingData = some r ∧
      r.location ≠ "" ∧
      r.location ∈ (fetchData toLowerCase year month q axios papa st).locations) ∧
    (∀ (data : Table) (key query : String) (row : Row),
      locationRow toLowerCase data key query = some row →
        ∃ loc, row.lookup key = some loc ∧ loc ≠ "") := by
  constructor
  · obtain ⟨csv, row0, rest, key, row, value, -, -, -, hrow, -, he⟩ :=
      fetchData_of_ok toLowerCase year month q axios papa st hok
    obtain ⟨hmem, loc, hloc, hne, -⟩ := locationRow_matches _ _ _ _ _ hrow
    rw [he]
    refine ⟨_, rfl, ?_, ?_⟩
    · simpa [hloc] using hne
    · simp only [hloc, Option.getD_some]
      exact (mem_availableLocs _ _ _).mpr ⟨hne, row, hmem, hloc⟩
  · intro data key query row hrow
    obtain ⟨-, loc, hloc, hne, -⟩ := locationRow_matches _ _ _ _ _ hrow
    exact ⟨loc, hloc, hne⟩

/-- Witness for C9: the query "vantaa" on a table with the rows "Helsinki" and
"Vantaa" succeeds, and the stored location is one of the stored locations. -/
theorem record_location_selectable_witness :
    (fetchData asciiLower 2024 0 "vantaa" (.response "")
      (.complete (some [exampleRow "Helsinki", exampleRow "Vantaa"])) initialState).error
        = none ∧
    ∃ r, (fetchData asciiLower 2024 0 "vantaa" (.response "")
        (.complete (some [exampleRow "Helsinki", exampleRow "Vantaa"]))
        initialState).heatingData = some r ∧
      r.location ≠ "" ∧
      r.location ∈ (fetchData asciiLower 2024 0 "vantaa" (.response "")
        (.complete (some [exampleRow "Helsinki", exampleRow "Vantaa"]))
        initialState).locations :=
  ⟨by decide,
    (record_location_selectable asciiLower 2024 0 "vantaa" (.response "")
      (.complete (some [exampleRow "Helsinki", exampleRow "Vantaa"])) initialState
      (by decide)).1⟩

/-- C2 (as the code has it): with a location column found, the resolution ends
with the not-found error, which carries the query and the location list of the
table, exactly when no row has a non-empty location cell that contains the
query as written or after lowercasing; the location list is stored all the
same. The query "VANTAA" against the single row "Vantaa" succeeds with the
location as stored. -/
theorem notFound_iff_no_nonempty_match (toLowerCase : String → String) (year : Nat)
    (month : Fin 12) (q csv key : String) (row0 : Row) (rest : Table) (st : State)
    (hkey : locationColumn (row0 :: rest) = some key) :
    ((fetchData toLowerCase year month q (.response csv)
        (.complete (some (row0 :: rest))) st).error =
          some (notFoundMessage q (availableLocs (row0 :: rest) key)) ↔
      ∀ row ∈ row0 :: rest, ¬ MatchesQuery toLowerCase key q row) ∧
    (fetchData toLowerCase year month q (.response csv)
        (.complete (some (row0 :: rest))) st).locations = availableLocs (row0 :: rest) key ∧
    fetchData asciiLower 2024 0 "VANTAA" (.response "")
        (.complete (some [exampleRow "Vantaa"])) initialState =
      { loading := false, error := none,
        heatingData := some ⟨"Vantaa", "January 2024", "120", 2024⟩,
        locations := ["Vantaa"] } := by
  refine ⟨?_, ?_, by decide⟩
  · rw [← locationRow_eq_none_iff]
    rcases fetchData_cases toLowerCase year month q csv key row0 rest st hkey with
      ⟨hrow, he⟩ | ⟨row, hrow, _, he⟩ | ⟨row, value, hrow, _, he⟩
    · simp [he, hrow]
    · rw [he, hrow]
      simp only [Option.some.injEq, reduceCtorEq, iff_false]
      exact fun h => notFoundMessage_ne_missingMonth q _ month h.symm
    · simp [he, hrow]
  · exact fetchData_locations toLowerCase year month q csv key row0 rest st hkey

/-- Witness for C2: the query "Atlantis" on a table with the rows "Vantaa" and
"Helsinki" matches no row and ends with the not-found error. -/
theorem notFound_iff_no_nonempty_match_witness :
    locationColumn [exampleRow "Vantaa", exampleRow "Helsinki"] = some exampleKey ∧
    (fetchData asciiLower 2024 0 "Atlantis" (.response "")
      (.complete (some [exampleRow "Vantaa", exampleRow "Helsinki"])) initialState).error =
        some "No data found for Atlantis. Available locations: Vantaa, Helsinki" ∧
    ∀ row ∈ [exampleRow "Vantaa", exampleRow "Helsinki"],
      ¬ MatchesQuery asciiLower exampleKey "Atlantis" row :=
  ⟨by decide, by decide,
    (notFound_iff_no_nonempty_match asciiLower 2024 0 "Atlantis" "" exampleKey
      (exampleRow "Vantaa") [exampleRow "Helsinki"] initialState (by decide)).1.mp
      (by decide)⟩

/-- C2 fails as stated: the only row has the empty string as its location, the
empty string contains the empty query, and the resolution still ends with the
not-found error. -/
theorem notFound_despite_containing_row :
    (exampleRow "").lookup exampleKey = some "" ∧
    IsSubstring "" "" ∧
    includes "" "" = true ∧
    (fetchData asciiLower 2024 0 "" (.response "")
      (.complete (some [exampleRow ""])) initialState).error =
        some (notFoundMessage "" (availableLocs [exampleRow ""] exampleKey)) ∧
    notFoundMessage "" (availableLocs [exampleRow ""] exampleKey) =
      "No data found for . Available locations: none" := by
  decide

/-- C3 (as the code has it): with a location column found, the stored location
list holds exactly the non-empty values that occur in the location cell of
some row. -/
theorem locations_iff_nonempty_cell (toLowerCase : String → String) (year : Nat)
    (month : Fin 12) (q csv key : String) (row0 : Row) (rest : Table) (st : State)
    (hkey : locationColumn (row0 :: rest) = some key) (a : String) :
    a ∈ (fetchData toLowerCase year month q (.response csv)
        (.complete (some (row0 :: rest))) st).locations ↔
      a ≠ "" ∧ ∃ row ∈ row0 :: rest, row.lookup key = some a := by
  rw [fetchData_locations toLowerCase year month q csv key row0 rest st hkey]
  exact mem_availableLocs _ _ _

/-- Witness for C3: on the rows "Vantaa", "" and "Helsinki" the value
"Helsinki" is offered. -/
theorem locations_iff_nonempty_cell_witness :
    locationColumn [exampleRow "Vantaa", exampleRow "", exampleRow "Helsinki"] =
      some exampleKey ∧
    "Helsinki" ∈ (fetchData asciiLower 2024 0 "Vantaa" (.response "")
      (.complete (some [exampleRow "Vantaa", exampleRow "", exampleRow "Helsinki"]))
      initialState).locations :=
  ⟨by decide,
    (locations_iff_nonempty_cell asciiLower 2024 0 "Vantaa" "" exampleKey
      (exampleRow "Vantaa") [exampleRow "", exampleRow "Helsinki"] initialState
      (by decide) "Helsinki").mpr
      ⟨by decide, exampleRow "Helsinki", by decide, by decide⟩⟩

/-- C3 fails as stated: the second row has the empty string as its location
value, and the empty string is not in the stored location list. -/
theorem empty_location_not_offered :
    exampleRow "" ∈ [exampleRow "Vantaa", exampleRow ""] ∧
    (exampleRow "").lookup exampleKey = some "" ∧
    (fetchData asciiLower 2024 0 "Vantaa" (.response "")
      (.complete (some [exampleRow "Vantaa", exampleRow ""])) initialState).locations =
        ["Vantaa"] ∧
    "" ∉ (fetchData asciiLower 2024 0 "Vantaa" (.response "")
      (.complete (some [exampleRow "Vantaa", exampleRow ""])) initialState).locations := by
  decide

/-- C4: the location list has no duplicates; every entry is carried by some
row; when `a` comes before `b` in the list, the first row carrying `a` comes
before the first row carrying `b`. The rows "Vantaa", "Helsinki", "Vantaa"
give the list "Vantaa", "Helsinki". -/
theorem availableLocs_nodup_first_occurrence (data : Table) (key : String) :
    (availableLocs data key).Nodup ∧
    (∀ a ∈ availableLocs data key, firstRowIndex data key a < data.length) ∧
    (∀ a b, List.Sublist [a, b] (availableLocs data key) →
      firstRowIndex data key a < firstRowIndex data key b) ∧
    availableLocs [exampleRow "Vantaa", exampleRow "Helsinki", exampleRow "Vantaa"]
      exampleKey = ["Vantaa", "Helsinki"] := by
  refine ⟨nodup_filterFirstIndex _, ?_, ?_, by decide⟩
  · intro a ha
    obtain ⟨-, row, hrow, hcell⟩ := (mem_availableLocs _ _ _).mp ha
    unfold firstRowIndex
    exact List.findIdx_lt_length_of_exists ⟨row, hrow, by simp [hcell]⟩
  · intro a b hab
    have ha : a ∈ availableLocs data key := hab.subset (by simp)
    have hb : b ∈ availableLocs data key := hab.subset (by simp)
    have hane := ((mem_availableLocs _ _ _).mp ha).1
    have hbne := ((mem_availableLocs _ _ _).mp hb).1
    exact firstRowIndex_lt_of_indexOf_lt key a b hane hbne data
      (List.pairwise_iff_forall_sublist.mp (pairwise_filterFirstIndex _) hab)

/-- Witness for C4: in the list of the rows "Vantaa", "Helsinki", "Vantaa" the
entry "Vantaa" precedes "Helsinki", and so do their first rows. -/
theorem availableLocs_nodup_first_occurrence_witness :
    firstRowIndex [exampleRow "Vantaa", exampleRow "Helsinki", exampleRow "Vantaa"]
        exampleKey "Vantaa" <
      firstRowIndex [exampleRow "Vantaa", exampleRow "Helsinki", exampleRow "Vantaa"]
        exampleKey "Helsinki" :=
  (availableLocs_nodup_first_occurrence
    [exampleRow "Vantaa", exampleRow "Helsinki", exampleRow "Vantaa"] exampleKey).2.2.1
    "Vantaa" "Helsinki"
    (by
      have h : availableLocs
          [exampleRow "Vantaa", exampleRow "Helsinki", exampleRow "Vantaa"] exampleKey =
          ["Vantaa", "Helsinki"] := by decide
      rw [h])

/-- C5: once the location column and a row are found, the resolution ends with
the missing-month error exactly when the matched row has no entry under the
Roman numeral of the month; when the entry is the empty string the resolution
succeeds and the stored heatingRequirement is the empty string. -/
theorem missingMonth_iff_key_absent (toLowerCase : String → String) (year : Nat)
    (month : Fin 12) (q csv key : String) (row0 row : Row) (rest : Table) (st : State)
    (hkey : locationColumn (row0 :: rest) = some key)
    (hrow : locationRow toLowerCase (row0 :: rest) key q = some row) :
    (monthEntry month).roman = toRoman (month.val + 1) ∧
    ((fetchData toLowerCase year month q (.response csv)
        (.complete (some (row0 :: rest))) st).error =
          some ("No data found for " ++ (monthEntry month).name) ↔
      row.lookup (monthEntry month).roman = none) ∧
    (row.lookup (monthEntry month).roman = some "" →
      (fetchData toLowerCase year month q (.response csv)
          (.complete (some (row0 :: rest))) st).error = none ∧
      (fetchData toLowerCase year month q (.response csv)
          (.complete (some (row0 :: rest))) st).heatingData.map
            (fun r => r.heatingRequirement) = some "") := by
  refine ⟨?_, ?_, ?_⟩
  · revert month
    decide
  · cases hcell : row.lookup (monthEntry month).roman with
    | none =>
      rw [fetchData_missingMonth _ _ _ _ _ _ _ _ _ _ hkey hrow hcell]
      simp
    | some value =>
      rw [fetchData_success _ _ _ _ _ _ _ _ _ _ _ hkey hrow hcell]
      simp
  · intro hcell
    rw [fetchData_success _ _ _ _ _ _ _ _ _ _ _ hkey hrow hcell]
    exact ⟨rfl, rfl⟩

/-- Witness for C5: a row "Vantaa" whose line has an empty January cell and no
further cells resolves January to the empty string and fails for February. -/
theorem missingMonth_iff_key_absent_witness :
    ((fetchData asciiLower 2024 0 "Vantaa" (.response "")
        (.complete (some [rowOf ["Vantaa", ""]])) initialState).error = none ∧
      (fetchData asciiLower 2024 0 "Vantaa" (.response "")
        (.complete (some [rowOf ["Vantaa", ""]])) initialState).heatingData.map
          (fun r => r.heatingRequirement) = some "") ∧
    (fetchData asciiLower 2024 1 "Vantaa" (.response "")
        (.complete (some [rowOf ["Vantaa", ""]])) initialState).error =
      some "No data found for February" :=
  ⟨(missingMonth_iff_key_absent asciiLower 2024 0 "Vantaa" "" exampleKey
      (rowOf ["Vantaa", ""]) (rowOf ["Vantaa", ""]) [] initialState
      (by decide) (by decide)).2.2 (by decide),
    (missingMonth_iff_key_absent asciiLower 2024 1 "Vantaa" "" exampleKey
      (rowOf ["Vantaa", ""]) (rowOf ["Vantaa", ""]) [] initialState
      (by decide) (by decide)).2.1.mpr (by decide)⟩

/-- C6: a resolution that ends without error went through a successful request
and parse, found the location column and a matching row, and stored the record
whose dataYear is the requested year, whose location is the location cell of
the matched row, whose heatingRequirement is the cell of the matched row under
the standard Roman numeral of the month number, unchanged, and whose month is
the English name of the month, a space and the year in decimal. For the header
of the yearly files and a row "Vantaa", "120", ... the resolution of January
gives "120" and "January 2024". -/
theorem success_record (toLowerCase : String → String) (year : Nat) (month : Fin 12)
    (q : String) (axios : AxiosOutcome) (papa : PapaOutcome) (st : State)
    (hok : (fetchData toLowerCase year month q axios papa st).error = none) :
    (∃ csv row0 rest key row loc value,
      axios = .response csv ∧ papa = .complete (some (row0 :: rest)) ∧
      locationColumn (row0 :: rest) = some key ∧
      locationRow toLowerCase (row0 :: rest) key q = some row ∧
      row.lookup key = some loc ∧
      row.lookup (toRoman (month.val + 1)) = some value ∧
      (fetchData toLowerCase year month q axios papa st).heatingData =
        some { location := loc
               month := englishMonthName month ++ " " ++ toString year
               heatingRequirement := value
               dataYear := year }) ∧
    (monthEntry month).name = englishMonthName month ∧
    (monthEntry month).roman = toRoman (month.val + 1) ∧
    months.map (fun m => m.name) =
      ["January", "February", "March", "April", "May", "June", "July", "August",
        "September", "October", "November", "December"] ∧
    months.map (fun m => m.roman) =
      ["I", "II", "III", "IV", "V", "VI", "VII", "VIII", "IX", "X", "XI", "XII"] ∧
    (fetchData asciiLower 2024 0 "Vantaa" (.response "")
      (.complete (some [exampleHeader.zip
        ["Vantaa", "120", "100", "90", "80", "70", "60", "50", "40", "30", "20", "15", "10"]]))
      initialState).heatingData = some ⟨"Vantaa", "January 2024", "120", 2024⟩ := by
  have hroman : ∀ m : Fin 12, (monthEntry m).roman = toRoman (m.val + 1) := by decide
  have hname : ∀ m : Fin 12, (monthEntry m).name = englishMonthName m := by decide
  refine ⟨?_, hname month, hroman month, by decide, by decide, by decide⟩
  obtain ⟨csv, row0, rest, key, row, value, hax, hpa, hkey, hrow, hcell, he⟩ :=
    fetchData_of_ok toLowerCase year month q axios papa st hok
  obtain ⟨-, loc, hloc, -, -⟩ := locationRow_matches _ _ _ _ _ hrow
  refine ⟨csv, row0, rest, key, row, loc, value, hax, hpa, hkey, hrow, hloc, ?_, ?_⟩
  · rw [← hroman month]
    exact hcell
  · rw [he, ← hname month]
    simp [hloc]

/-- Witness for C6: the resolution of March 2019 for the query "Vanta" on the
rows "Helsinki" and "Vantaa" ends without error and stores the record with the
label "March 2019" and the cell "90" of the column "III". -/
theorem success_record_witness :
    (fetchData asciiLower 2019 2 "Vanta" (.response "")
      (.complete (some [exampleRow "Helsinki", exampleRow "Vantaa"])) initialState).error
        = none ∧
    (fetchData asciiLower 2019 2 "Vanta" (.response "")
      (.complete (some [exampleRow "Helsinki", exampleRow "Vantaa"]))
      initialState).heatingData = some ⟨"Vantaa", "March 2019", "90", 2019⟩ ∧
    ∃ csv row0 rest key row loc value,
      AxiosOutcome.response "" = .response csv ∧
      PapaOutcome.complete (some [exampleRow "Helsinki", exampleRow "Vantaa"]) =
        .complete (some (row0 :: rest)) ∧
      locationColumn (row0 :: rest) = some key ∧
      locationRow asciiLower (row0 :: rest) key "Vanta" = some row ∧
      row.lookup key = some loc ∧
      row.lookup (toRoman ((2 : Fin 12).val + 1)) = some value ∧
      (fetchData asciiLower 2019 2 "Vanta" (.response "")
        (.complete (some [exampleRow "Helsinki", exampleRow "Vantaa"]))
        initialState).heatingData =
        some { location := loc
               month := englishMonthName 2 ++ " " ++ toString 2019
               heatingRequirement := value
               dataYear := 2019 } :=
  ⟨by decide, by decide,
    (success_record asciiLower 2019 2 "Vanta" (.response "")
      (.complete (some [exampleRow "Helsinki", exampleRow "Vantaa"])) initialState
      (by decide)).1⟩

/-- C7: for a table with at least one row, the location column key is the
first key of the first row, in header order, that contains one of the two
markers; the resolution ends with the no-location-column error exactly when no
key of the first row contains a marker, and then, whatever the other rows and
the query are, the stored location list and the stored record are left as they
were. -/
theorem locationColumn_first_marker_key (toLowerCase : String → String) (year : Nat)
    (month : Fin 12) (q csv : String) (row0 : Row) (rest : Table) (st : State) :
    (∀ key, locationColumn (row0 :: rest) = some key ↔
      HasMarker key ∧
        ∃ before after, row0.map Prod.fst = before ++ key :: after ∧
          ∀ k ∈ before, ¬ HasMarker k) ∧
    ((fetchData toLowerCase year month q (.response csv)
        (.complete (some (row0 :: rest))) st).error =
          some "Could not find location column in CSV data" ↔
      ∀ k ∈ row0.map Prod.fst, ¬ HasMarker k) ∧
    ((∀ k ∈ row0.map Prod.fst, ¬ HasMarker k) →
      (fetchData toLowerCase year month q (.response csv)
        (.complete (some (row0 :: rest))) st).locations = st.locations ∧
      (fetchData toLowerCase year month q (.response csv)
        (.complete (some (row0 :: rest))) st).heatingData = st.heatingData) := by
  have hnone : locationColumn (row0 :: rest) = none ↔
      ∀ k ∈ row0.map Prod.fst, ¬ HasMarker k := by
    rw [locationColumn_cons, List.find?_eq_none]
    simp only [isLocationKey_iff]
  refine ⟨?_, ?_, ?_⟩
  · intro key
    rw [locationColumn_cons, List.find?_eq_some]
    simp only [isLocationKey_iff, Bool.not_eq_true_eq_eq_false, ← Bool.not_eq_true,
      Bool.not_eq_eq_eq_not, Bool.not_true]
  · rw [← hnone]
    cases hkey : locationColumn (row0 :: rest) with
    | none =>
      rw [fetchData_noColumn _ _ _ _ _ _ _ _ hkey]
      simp
    | some key =>
      simp only [reduceCtorEq, iff_false]
      intro herr
      have hhead : ∀ msg, (fetchData toLowerCase year month q (.response csv)
          (.complete (some (row0 :: rest))) st).error = some msg →
          msg.toList.head? = some 'N' := by
        intro msg hmsg
        rcases fetchData_cases toLowerCase year month q csv key row0 rest st hkey with
          ⟨_, he⟩ | ⟨row, _, _, he⟩ | ⟨row, value, _, _, he⟩
        · rw [he] at hmsg
          simp only [Option.some.injEq] at hmsg
          rw [← hmsg]
          exact notFoundMessage_head q _
        · rw [he] at hmsg
          simp only [Option.some.injEq] at hmsg
          rw [← hmsg]
          exact head_noData _
        · rw [he] at hmsg
          simp at hmsg
      have := hhead _ herr
      rw [head_noColumn] at this
      exact absurd this (by decide)
  · intro hno
    rw [fetchData_noColumn _ _ _ _ _ _ _ _ (hnone.mpr hno)]
    exact ⟨rfl, rfl⟩

/-- Witness for C7: a first row with the keys "Station" and "I" has no
location column, and the resolution leaves the list and the record alone. -/
theorem locationColumn_first_marker_key_witness :
    (∀ k ∈ ([("Station", "Vantaa"), ("I", "120")] : Row).map Prod.fst, ¬ HasMarker k) ∧
    (fetchData asciiLower 2024 0 "Vantaa" (.response "")
      (.complete (some [[("Station", "Vantaa"), ("I", "120")], exampleRow "Vantaa"]))
      initialState).locations = initialState.locations ∧
    (fetchData asciiLower 2024 0 "Vantaa" (.response "")
      (.complete (some [[("Station", "Vantaa"), ("I", "120")], exampleRow "Vantaa"]))
      initialState).heatingData = initialState.heatingData :=
  ⟨by decide,
    (locationColumn_first_marker_key asciiLower 2024 0 "Vantaa" ""
      [("Station", "Vantaa"), ("I", "120")] [exampleRow "Vantaa"] initialState).2.2
      (by decide)⟩

/-- C8 (as the code has it): a resolution that fails leaves a non-empty error
message and the stored record as it was before, so that the render shows no
record; a resolution that succeeds leaves no error and stores, and shows, the
complete record of this resolution. -/
theorem failure_hides_record (toLowerCase : String → String) (year : Nat)
    (month : Fin 12) (q : String) (axios : AxiosOutcome) (papa : PapaOutcome) (st : State) :
    ((fetchData toLowerCase year month q axios papa st).error ≠ none →
      truthy (fetchData toLowerCase year month q axios papa st).error = true ∧
      (fetchData toLowerCase year month q axios papa st).heatingData = st.heatingData ∧
      displayedRecord (fetchData toLowerCase year month q axios papa st) = none) ∧
    ((fetchData toLowerCase year month q axios papa st).error = none →
      ∃ r, (fetchData toLowerCase year month q axios papa st).heatingData = some r ∧
        displayedRecord (fetchData toLowerCase year month q axios papa st) = some r ∧
        r.location ≠ "" ∧
        r.month = (monthEntry month).name ++ " " ++ toString year ∧
        r.dataYear = year) := by
  rcases fetchData_outcome toLowerCase year month q axios papa st with
    ⟨msg, hmsg, he, hd, hl⟩ | ⟨csv, row0, rest, key, row, value, -, -, -, hrow, -, he⟩
  · refine ⟨fun _ => ⟨?_, hd, ?_⟩, fun hok => ?_⟩
    · rw [he]
      simpa [truthy] using hmsg
    · unfold displayedRecord
      rw [he]
      simp [truthy, hmsg]
    · rw [he] at hok
      exact absurd hok (by simp)
  · obtain ⟨-, loc, hloc, hne, -⟩ := locationRow_matches _ _ _ _ _ hrow
    refine ⟨fun hne => ?_, fun _ => ?_⟩
    · rw [he] at hne
      exact absurd rfl hne
    · rw [he]
      refine ⟨_, rfl, ?_, ?_, rfl, rfl⟩
      · simp [displayedRecord, truthy]
      · simpa [hloc] using hne

/-- Witness for C8: after a success for "Vantaa", a resolution for "Atlantis"
fails, and the render shows no record. -/
theorem failure_hides_record_witness :
    truthy (fetchData asciiLower 2024 0 "Atlantis" (.response "")
      (.complete (some [exampleRow "Vantaa"]))
      (fetchData asciiLower 2024 0 "Vantaa" (.response "")
        (.complete (some [exampleRow "Vantaa"])) initialState)).error = true ∧
    (fetchData asciiLower 2024 0 "Atlantis" (.response "")
      (.complete (some [exampleRow "Vantaa"]))
      (fetchData asciiLower 2024 0 "Vantaa" (.response "")
        (.complete (some [exampleRow "Vantaa"])) initialState)).heatingData =
      (fetchData asciiLower 2024 0 "Vantaa" (.response "")
        (.complete (some [exampleRow "Vantaa"])) initialState).heatingData ∧
    displayedRecord (fetchData asciiLower 2024 0 "Atlantis" (.response "")
      (.complete (some [exampleRow "Vantaa"]))
      (fetchData asciiLower 2024 0 "Vantaa" (.response "")
        (.complete (some [exampleRow "Vantaa"])) initialState)) = none :=
  (failure_hides_record asciiLower 2024 0 "Atlantis" (.response "")
    (.complete (some [exampleRow "Vantaa"]))
    (fetchData asciiLower 2024 0 "Vantaa" (.response "")
      (.complete (some [exampleRow "Vantaa"])) initialState)).1 (by decide)

/-- C8 fails as stated: after a success for "Vantaa", a resolution for
"Atlantis" fails with the not-found error, and the record of the earlier
success is still stored next to the error. -/
theorem stale_record_kept_on_failure :
    (fetchData asciiLower 2024 0 "Vantaa" (.response "")
      (.complete (some [exampleRow "Vantaa"])) initialState).heatingData =
        some ⟨"Vantaa", "January 2024", "120", 2024⟩ ∧
    (fetchData asciiLower 2024 0 "Atlantis" (.response "")
      (.complete (some [exampleRow "Vantaa"]))
      (fetchData asciiLower 2024 0 "Vantaa" (.response "")
        (.complete (some [exampleRow "Vantaa"])) initialState)).error =
        some "No data found for Atlantis. Available locations: Vantaa" ∧
    (fetchData asciiLower 2024 0 "Atlantis" (.response "")
      (.complete (some [exampleRow "Vantaa"]))
      (fetchData asciiLower 2024 0 "Vantaa" (.response "")
        (.complete (some [exampleRow "Vantaa"])) initialState)).heatingData =
        some ⟨"Vantaa", "January 2024", "120", 2024⟩ := by
  decide

end FmiHeating
